import Mathlib

/-!
Shallow embedding of the run-monitor / batch-ingestion core of the
reportrag frontend (src/app/static/js/main.js and the APIClient in
src/unnamed/part_000), together with proofs settling the frozen claims.

Conventions:
* network effects are reified as `ApiCall` values accumulated in result lists;
* the backend is a black box: fetch outcomes are oracle parameters
  (`FetchOutcomes`, `DocsBackend`);
* `main.js` contains two variants of the `App` class separated by a marker;
  the run monitor is embedded from the first variant (lines 329-511), the
  form-submission path `handleDocumentSubmit` from the second variant
  (lines 676-748), matching the lines the claims cite.
-/

namespace ReportRag

/-- A raw file payload: name and uninterpreted content bytes. -/
structure FileItem where
  name : String
  content : String
deriving DecidableEq

/-- One multipart form-data entry, as built by `FormData.append`. -/
inductive FormEntry
  | fileEntry (field : String) (file : FileItem)
  | textEntry (field : String) (value : String)
deriving DecidableEq

/-- Body of `POST /documents/upsert` as built by `APIClient.uploadDocument`
(src/unnamed/part_000, lines 46-57). -/
structure UpsertBody where
  title : String
  author : String
  year : Option Int
  content : String
deriving DecidableEq

/-- Response of the single-document upload endpoints. -/
structure UploadResp where
  doc_id : String
  chunk_count : Nat
  existed : Bool
deriving DecidableEq

/-- One per-item result of a batch upload, tagged success or failure. -/
inductive ItemResult
  | ok (filename : String) (ref : String)
  | err (filename : String) (message : String)
deriving DecidableEq

/-- Response of `POST /documents/upload-batch`. -/
structure BatchResp where
  successful : Nat
  failed : Nat
  results : List ItemResult
deriving DecidableEq

/-- Coarse backend-reported state of a run (closed set). -/
inductive Lifecycle
  | initializing
  | running
  | completed
  | failed
deriving DecidableEq

/-- Job counters reported with a run status. -/
structure JobCounts where
  queued : Nat
  running : Nat
  done : Nat
  failed : Nat
deriving DecidableEq

/-- Response of `GET /runs/{id}`, as consumed by `App.updateRunDetail`. -/
structure RunStatus where
  run_id : String
  topic : String
  status : Lifecycle
  progress_percent : ℚ
  job_counts : JobCounts
deriving DecidableEq

/-- One node of `GET /runs/{id}/detailed-progress`. -/
structure SectionNode where
  node_id : String
  title : String
  status : String
  chunks_retrieved : Nat
  evidence_extracted : Nat
  claims_generated : Nat
  draft_completed : Bool
  draft_length : Nat
deriving DecidableEq

/-- One outline node of the artifacts response. -/
structure OutlineNode where
  title : String
  status : String
deriving DecidableEq

/-- Response of `GET /runs/{id}/artifacts`. -/
structure Artifacts where
  outline_nodes : List OutlineNode
  evidence_summary : List (String × Nat)
  claims_summary : List (String × Nat)
deriving DecidableEq

/-- A reified network request issued through the API client. -/
inductive ApiCall
  | upsert (body : UpsertBody)
  | uploadFile (form : List FormEntry)
  | uploadBatch (files : List FileItem)
  | getStatus (runId : String)
  | getDetailedProgress (runId : Option String)
  | getArtifacts (runId : String)
  | getLatex (runId : String)
deriving DecidableEq

/-! ## Remote Pipeline Client (src/unnamed/part_000) -/

/-- JavaScript `String.prototype.trim`: strip leading and trailing
whitespace (implemented over the character list so it evaluates by
reduction). -/
def jsTrim (s : String) : String :=
  String.mk (((s.data.dropWhile Char.isWhitespace).reverse.dropWhile
    Char.isWhitespace).reverse)

/-- JavaScript `parseInt` composed with JSON serialization: leading
whitespace and sign accepted, longest digit prefix parsed; a `NaN`
result serializes as `null`, hence `none`. -/
def jsParseInt (s : String) : Option Int :=
  let t := (jsTrim s).data
  let signed : Bool × List Char :=
    match t with
    | '-' :: rest => (true, rest)
    | '+' :: rest => (false, rest)
    | _ => (false, t)
  let digits := signed.snd.takeWhile (fun c => c.isDigit)
  if digits.isEmpty then none
  else
    let n : Nat := digits.foldl (fun acc c => acc * 10 + (c.toNat - 48)) 0
    some (if signed.fst then -(n : Int) else (n : Int))

/-- Embeds `APIClient.uploadDocument` (part_000 lines 46-57): the JSON body
of `POST /documents/upsert`. `data.author || ''` is the identity on strings;
`data.year ? parseInt(data.year) : null` maps an empty string to `null`. -/
def uploadDocumentBody (title author year content : String) : UpsertBody :=
  { title := title
  , author := author
  , year := if year = "" then none else jsParseInt year
  , content := content }

/-- Embeds `APIClient.uploadDocumentFile` (part_000 lines 62-88): the
multipart form. `title` is appended unconditionally; `author` and `year`
only when truthy (non-empty, non-null). -/
def uploadDocumentFileForm (file : FileItem) (title author : String)
    (year : Option String) : List FormEntry :=
  [FormEntry.fileEntry "file" file, FormEntry.textEntry "title" title]
    ++ (if author = "" then [] else [FormEntry.textEntry "author" author])
    ++ (match year with
        | some y => if y = "" then [] else [FormEntry.textEntry "year" y]
        | none => [])

/-- The backend as seen by the document-upload paths: one oracle per
endpoint, each returning a typed result or a transport error message. -/
structure DocsBackend where
  upsert : UpsertBody → Except String UploadResp
  fileUpload : List FormEntry → Except String UploadResp
  batchUpload : List FileItem → Except String BatchResp

/-- True on a tagged-success per-item result. -/
def isOkItem : ItemResult → Bool
  | ItemResult.ok _ _ => true
  | ItemResult.err _ _ => false

/-- Modelled from the spec: the server side of `POST /documents/upload-batch`
is not part of src/ (only the frontend is). Per sections 3 and 6 of the spec
the backend returns `successful`, `failed` and one tagged per-item result per
submitted file, in submission order, with each failure message preserved.
`verdict` abstracts the backend's per-file decision. -/
def specBatchBackend (verdict : FileItem → Except String String)
    (files : List FileItem) : BatchResp :=
  let results := files.map (fun f =>
    match verdict f with
    | Except.ok ref => ItemResult.ok f.name ref
    | Except.error msg => ItemResult.err f.name msg)
  { successful := results.countP (fun r => isOkItem r)
  , failed := results.countP (fun r => !isOkItem r)
  , results := results }

/-- Modelled from the spec: the `total` field of a `BatchOutcome` (spec
section 3) is the number of per-item results carried by the report. -/
def BatchResp.total (r : BatchResp) : Nat := r.results.length

/-! ## Batch Ingestion Orchestrator (main.js, first variant) -/

/-- Outcome of `App.uploadSelectedFiles` as surfaced to the user. -/
inductive UploadOutcome
  | noFilesSelected
  | singleUploaded (chunkCount : Nat)
  | batchReported (resp : BatchResp)
  | uploadFailed (message : String)
deriving DecidableEq

/-- JavaScript `name.substring(0, name.lastIndexOf('.')) || name` from
`App.uploadSelectedFiles` line 177: strip the extension after the last dot,
falling back to the whole name when the stem would be empty. -/
def stripExtJs (name : String) : String :=
  match name.data.reverse.findIdx? (fun c => c == '.') with
  | none => name
  | some j =>
      let stem := String.mk (name.data.take (name.data.length - 1 - j))
      if stem = "" then name else stem

/-- Embeds `App.uploadSelectedFiles` (main.js lines 163-212): no selection
is rejected locally; one file goes through `uploadDocumentFile` with the
filename as placeholder title, empty author and null year; two or more
files go through `uploadDocumentsBatch` as a single request. -/
def uploadSelectedFiles (selected : Option (List FileItem)) (b : DocsBackend) :
    List ApiCall × UploadOutcome :=
  match selected with
  | none => ([], UploadOutcome.noFilesSelected)
  | some [] => ([], UploadOutcome.noFilesSelected)
  | some [f] =>
      let form := uploadDocumentFileForm f (stripExtJs f.name) "" none
      (match b.fileUpload form with
       | Except.ok resp =>
           ([ApiCall.uploadFile form], UploadOutcome.singleUploaded resp.chunk_count)
       | Except.error msg =>
           ([ApiCall.uploadFile form], UploadOutcome.uploadFailed msg))
  | some (f :: g :: rest) =>
      (match b.batchUpload (f :: g :: rest) with
       | Except.ok resp =>
           ([ApiCall.uploadBatch (f :: g :: rest)], UploadOutcome.batchReported resp)
       | Except.error msg =>
           ([ApiCall.uploadBatch (f :: g :: rest)], UploadOutcome.uploadFailed msg))

/-- Outcome of `App.handleDocumentSubmit` as surfaced to the user. -/
inductive SubmitOutcome
  | titleRequired
  | contentRequired
  | submitted (chunkCount : Nat)
  | batchReported (resp : BatchResp)
  | failed (message : String)
deriving DecidableEq

/-- Embeds `App.handleDocumentSubmit` (main.js second variant, lines
676-748): title/author/content are trimmed, year is not; more than one
selected file goes to the batch endpoint; exactly one selected file goes to
the single-file endpoint after the title check; otherwise the text path
validates title and content locally before one `upsert` call. -/
def handleDocumentSubmit (rawTitle rawAuthor rawYear rawContent : String)
    (selectedFiles : Option (List FileItem)) (b : DocsBackend) :
    List ApiCall × SubmitOutcome :=
  let title := jsTrim rawTitle
  let author := jsTrim rawAuthor
  let year := rawYear
  let content := jsTrim rawContent
  match selectedFiles with
  | some (f :: g :: rest) =>
      (match b.batchUpload (f :: g :: rest) with
       | Except.ok resp =>
           ([ApiCall.uploadBatch (f :: g :: rest)], SubmitOutcome.batchReported resp)
       | Except.error m =>
           ([ApiCall.uploadBatch (f :: g :: rest)], SubmitOutcome.failed m))
  | some [f] =>
      if title = "" then ([], SubmitOutcome.titleRequired)
      else
        let form := uploadDocumentFileForm f title author (some year)
        (match b.fileUpload form with
         | Except.ok resp => ([ApiCall.uploadFile form], SubmitOutcome.submitted resp.chunk_count)
         | Except.error m => ([ApiCall.uploadFile form], SubmitOutcome.failed m))
  | _ =>
      if title = "" then ([], SubmitOutcome.titleRequired)
      else if content = "" then ([], SubmitOutcome.contentRequired)
      else
        let body := uploadDocumentBody title author year content
        (match b.upsert body with
         | Except.ok resp => ([ApiCall.upsert body], SubmitOutcome.submitted resp.chunk_count)
         | Except.error m => ([ApiCall.upsert body], SubmitOutcome.failed m))

/-! ## Run Monitor (main.js, first variant, lines 296-511)

The session state mirrors the mutable `App` fields touched by the monitor
plus the run-detail DOM it renders into: `statusView`/`sectionsView` are the
cached view-model (title, stepper, progress bar, job counts, per-section
progress), `artifactsView`/`latexView` the artifact panes, `latexContent`
the `this.latexContent` field. `setInterval`/`clearInterval` are modelled by
an explicit scheduler holding the identifiers of live interval timers. -/

/-- The mutable monitor fields of `App` together with the run-detail DOM. -/
structure AppState where
  currentRunId : Option String
  pollingInterval : Option Nat
  latexContent : Option String
  statusView : Option RunStatus
  sectionsView : Option (List SectionNode)
  artifactsView : Option Artifacts
  latexView : Option String
deriving DecidableEq

/-- The browser timer environment: live interval-timer handles and the next
fresh handle. -/
structure Sched where
  live : List Nat
  nextId : Nat
deriving DecidableEq

/-- Monitor session state: the `App` fields plus the timer environment. -/
structure Sys where
  app : AppState
  sched : Sched
deriving DecidableEq

/-- Oracle for the backend responses a tick may consume: status, detailed
progress, artifacts and final LaTeX, each either a value or a transport
error message. `getDetailedProgress` is invoked by main.js but absent from
the APIClient variant in src/unnamed/part_000; per spec section 6 it is a
plain fetch of `GET /runs/{id}/detailed-progress`, so its outcome is part of
the same oracle. -/
instance instDecEqExcept {ε α : Type} [DecidableEq ε] [DecidableEq α] :
    DecidableEq (Except ε α) := fun x y =>
  match x, y with
  | Except.ok a, Except.ok b =>
      if h : a = b then isTrue (by rw [h])
      else isFalse (by intro hc; cases hc; exact h rfl)
  | Except.ok _, Except.error _ => isFalse (by intro hc; cases hc)
  | Except.error _, Except.ok _ => isFalse (by intro hc; cases hc)
  | Except.error e, Except.error f =>
      if h : e = f then isTrue (by rw [h])
      else isFalse (by intro hc; cases hc; exact h rfl)

structure FetchOutcomes where
  status : Except String RunStatus
  detailed : Except String (List SectionNode)
  artifacts : Except String Artifacts
  latex : Except String String
deriving DecidableEq

/-- Observable atomic actions of one tick, in execution order. -/
inductive Action
  | renderStatusView
  | renderSections
  | cancelTimer
  | fetchLatex
  | fetchArtifacts
  | toastError
deriving DecidableEq

/-- Result of a best-effort sub-fetch (`loadLatex`, `loadArtifacts`). -/
structure SubResult where
  sys : Sys
  calls : List ApiCall
  logs : List String
  actions : List Action
deriving DecidableEq

/-- Result of one full tick: final state, issued calls, surfaced toasts,
console logs and the action trace. -/
structure TickResult where
  sys : Sys
  calls : List ApiCall
  toasts : List String
  logs : List String
  actions : List Action
deriving DecidableEq

/-- `clearInterval`: remove a handle from the live set. -/
def clearIntervalOp (w : Sched) (t : Nat) : Sched :=
  { w with live := w.live.erase t }

/-- Embeds `App.stopPolling` (lines 506-511), also reporting whether a
timer was actually cleared. -/
def stopPollingA (s : Sys) : Sys × List Action :=
  match s.app.pollingInterval with
  | some t =>
      ({ app := { s.app with pollingInterval := none }
       , sched := clearIntervalOp s.sched t }, [Action.cancelTimer])
  | none => (s, [])

/-- Embeds `App.stopPolling` (lines 506-511). -/
def stopPolling (s : Sys) : Sys := (stopPollingA s).fst

/-- Embeds `App.startPolling` (lines 496-501): tear down any prior timer,
then register a fresh interval timer. -/
def startPolling (s : Sys) : Sys :=
  let s1 := stopPolling s
  { app := { s1.app with pollingInterval := some s1.sched.nextId }
  , sched := { live := s1.sched.live ++ [s1.sched.nextId]
             , nextId := s1.sched.nextId + 1 } }

/-- Embeds `App.hideRunDetail` (lines 316-324), the `stopObserving`
operation: stop polling and detach from the observed run. -/
def hideRunDetail (s : Sys) : Sys :=
  let s1 := stopPolling s
  { s1 with app := { s1.app with currentRunId := none } }

/-- Embeds `App.loadLatex` (lines 461-477): guarded on an observed run;
a failure is logged and swallowed. -/
def loadLatex (o : Except String String) (s : Sys) : SubResult :=
  match s.app.currentRunId with
  | none => { sys := s, calls := [], logs := [], actions := [] }
  | some rid =>
      match o with
      | Except.ok ltx =>
          { sys := { s with app := { s.app with latexView := some ltx, latexContent := some ltx } }
          , calls := [ApiCall.getLatex rid], logs := [], actions := [Action.fetchLatex] }
      | Except.error e =>
          { sys := s, calls := [ApiCall.getLatex rid]
          , logs := ["Failed to load LaTeX: " ++ e], actions := [Action.fetchLatex] }

/-- Embeds `App.loadArtifacts` (lines 418-456): guarded on an observed run;
the pane is updated only when outline nodes are present; a failure is
logged and swallowed. -/
def loadArtifacts (o : Except String Artifacts) (s : Sys) : SubResult :=
  match s.app.currentRunId with
  | none => { sys := s, calls := [], logs := [], actions := [] }
  | some rid =>
      match o with
      | Except.ok a =>
          { sys := if a.outline_nodes.isEmpty then s
                   else { s with app := { s.app with artifactsView := some a } }
          , calls := [ApiCall.getArtifacts rid], logs := [], actions := [Action.fetchArtifacts] }
      | Except.error e =>
          { sys := s, calls := [ApiCall.getArtifacts rid]
          , logs := ["Failed to load artifacts: " ++ e], actions := [Action.fetchArtifacts] }

/-- The view-model rendering of a successful tick (lines 336-356): topic,
stepper, progress bar, job counts and per-section progress are written to
the run-detail DOM. -/
def renderView (st : RunStatus) (ns : List SectionNode) (s : Sys) : Sys :=
  { s with app := { s.app with statusView := some st, sectionsView := some ns } }

/-- The `if (status.status === 'completed')` branch of `updateRunDetail`
(lines 358-362): stop polling, then fetch the final LaTeX. -/
def completedPhase (o : FetchOutcomes) (st : RunStatus) (s : Sys) : SubResult :=
  if st.status = Lifecycle.completed then
    let r := loadLatex o.latex (stopPolling s)
    { sys := r.sys, calls := r.calls, logs := r.logs
    , actions := (stopPollingA s).snd ++ r.actions }
  else { sys := s, calls := [], logs := [], actions := [] }

/-- The body of `App.updateRunDetail` (lines 332-370) after the entry guard
read `currentRunId` and issued the status fetch: a failing status or
detailed-progress fetch lands in the catch block (toast, `stopPolling`);
otherwise the view-model is rendered, the completed branch runs, then the
best-effort artifact fetch. The detailed-progress call re-reads
`this.currentRunId`, as does every guard inside `loadLatex` and
`loadArtifacts`; nothing re-checks the guard before rendering. -/
def tickResume (o : FetchOutcomes) (s : Sys) : TickResult :=
  match o.status with
  | Except.error e =>
      { sys := stopPolling s, calls := []
      , toasts := ["Failed to load run status: " ++ e]
      , logs := [], actions := Action.toastError :: (stopPollingA s).snd }
  | Except.ok st =>
      let dcall := ApiCall.getDetailedProgress s.app.currentRunId
      match o.detailed with
      | Except.error e =>
          { sys := stopPolling s, calls := [dcall]
          , toasts := ["Failed to load run status: " ++ e]
          , logs := [], actions := Action.toastError :: (stopPollingA s).snd }
      | Except.ok nodes =>
          let s1 : Sys := renderView st nodes s
          let fin := completedPhase o st s1
          let arts := loadArtifacts o.artifacts fin.sys
          { sys := arts.sys
          , calls := dcall :: (fin.calls ++ arts.calls)
          , toasts := []
          , logs := fin.logs ++ arts.logs
          , actions := Action.renderStatusView :: Action.renderSections ::
              (fin.actions ++ arts.actions) }

/-- Embeds `App.updateRunDetail` (lines 329-371): one poll tick. The guard
returns immediately when no run is observed; otherwise the status fetch for
the observed run is issued and the body runs. -/
def updateRunDetail (o : FetchOutcomes) (s : Sys) : TickResult :=
  match s.app.currentRunId with
  | none => { sys := s, calls := [], toasts := [], logs := [], actions := [] }
  | some rid =>
      let r := tickResume o s
      { r with calls := ApiCall.getStatus rid :: r.calls }

/-- Embeds `App.viewRunDetail` (lines 298-311): attach to a run, start
polling, then perform the initial fetch-and-render cycle. -/
def viewRunDetail (rid : String) (o : FetchOutcomes) (s : Sys) : TickResult :=
  let s1 : Sys := { s with app := { s.app with currentRunId := some rid } }
  updateRunDetail o (startPolling s1)

/-! ## Session dynamics -/

/-- An interval tick can fire only while a live timer exists. -/
def tickEnabled (s : Sys) : Bool := !s.sched.live.isEmpty

/-- Events of one observation session after some point in time: an interval
tick firing (a no-op when no timer is live) or the user disengaging. -/
inductive Event
  | tickFire (o : FetchOutcomes)
  | stopObserving

/-- One session event. -/
def sessionStep (s : Sys) : Event → Sys
  | Event.tickFire o => if tickEnabled s then (updateRunDetail o s).sys else s
  | Event.stopObserving => hideRunDetail s

/-- Number of poll ticks that actually fire along an event sequence. -/
def ticksFired (s : Sys) : List Event → Nat
  | [] => 0
  | e :: es =>
      (match e with
       | Event.tickFire _ => if tickEnabled s then 1 else 0
       | Event.stopObserving => 0) + ticksFired (sessionStep s e) es

/-! ## Timer invariant -/

/-- Consistency of the `pollingInterval` handle with the live timers: no
handle means no live interval timer; a held handle is the unique live timer
and is in the range of already-allocated identifiers. -/
def SchedInv (p : Option Nat) (w : Sched) : Prop :=
  match p with
  | none => w.live = []
  | some t => w.live = [t] ∧ t < w.nextId

instance instDecSchedInv (p : Option Nat) (w : Sched) : Decidable (SchedInv p w) :=
  match p with
  | none => inferInstanceAs (Decidable (w.live = []))
  | some t => inferInstanceAs (Decidable (w.live = [t] ∧ t < w.nextId))

/-- The session invariant: at most one live poll timer, tracked by the
`pollingInterval` handle. -/
def Inv (s : Sys) : Prop := SchedInv s.app.pollingInterval s.sched

instance instDecInv (s : Sys) : Decidable (Inv s) :=
  inferInstanceAs (Decidable (SchedInv s.app.pollingInterval s.sched))

/-! ## Concrete fixtures -/

/-- A single selected file with no caller-supplied metadata. -/
def filePaper : FileItem := ⟨"paper.pdf", "PDFBYTES"⟩

/-- A backend on which every upload succeeds. -/
def okBackend : DocsBackend :=
  { upsert := fun _ => Except.ok ⟨"doc1", 3, false⟩
  , fileUpload := fun _ => Except.ok ⟨"doc1", 3, false⟩
  , batchUpload := fun fs => Except.ok (specBatchBackend (fun _ => Except.ok "doc") fs) }

/-- True on a multipart entry carrying document metadata. -/
def isMetadataEntry : FormEntry → Bool
  | FormEntry.textEntry field _ => field == "title" || field == "author" || field == "year"
  | FormEntry.fileEntry _ _ => false

/-- True on a request whose form carries document metadata. -/
def callHasSynthesizedMetadata : ApiCall → Bool
  | ApiCall.uploadFile form => form.any isMetadataEntry
  | _ => false

/-! ## Shared helper lemmas -/

lemma countP_add_countP_not (l : List ItemResult) (p : ItemResult → Bool) :
    l.countP p + l.countP (fun r => !p r) = l.length := by
  induction l with
  | nil => simp
  | cons a t ih =>
      by_cases h : p a = true <;> simp [List.countP_cons, h] <;> omega

lemma specBatchBackend_results_getElem (verdict : FileItem → Except String String)
    (files : List FileItem) (i : Nat) (h : i < files.length) (msg : String)
    (hv : verdict (files.get ⟨i, h⟩) = Except.error msg) :
    (specBatchBackend verdict files).results[i]?
      = some (ItemResult.err (files.get ⟨i, h⟩).name msg) := by
  simp only [List.get_eq_getElem] at hv
  simp [specBatchBackend, List.getElem?_map, List.getElem?_eq_getElem h,
    List.get_eq_getElem, hv]

lemma stopPolling_of_none (s : Sys) (h : s.app.pollingInterval = none) :
    stopPolling s = s := by
  simp [stopPolling, stopPollingA, h]

lemma stopPolling_interval (s : Sys) : (stopPolling s).app.pollingInterval = none := by
  cases hp : s.app.pollingInterval <;> simp [stopPolling, stopPollingA, hp]

lemma stopPolling_live (s : Sys) (h : Inv s) : (stopPolling s).sched.live = [] := by
  unfold Inv SchedInv at h
  cases hp : s.app.pollingInterval with
  | none =>
      rw [hp] at h
      simp [stopPolling, stopPollingA, hp, h]
  | some t =>
      rw [hp] at h
      simp [stopPolling, stopPollingA, hp, clearIntervalOp, h.1]

lemma stopPolling_frame (s : Sys) :
    (stopPolling s).app.currentRunId = s.app.currentRunId ∧
    (stopPolling s).app.statusView = s.app.statusView ∧
    (stopPolling s).app.sectionsView = s.app.sectionsView ∧
    (stopPolling s).app.latexContent = s.app.latexContent ∧
    (stopPolling s).app.latexView = s.app.latexView ∧
    (stopPolling s).app.artifactsView = s.app.artifactsView ∧
    (stopPolling s).sched.nextId = s.sched.nextId := by
  cases hp : s.app.pollingInterval <;>
    simp [stopPolling, stopPollingA, clearIntervalOp, hp]

lemma inv_of_eq (s s' : Sys) (h : Inv s)
    (hp : s'.app.pollingInterval = s.app.pollingInterval)
    (hw : s'.sched = s.sched) : Inv s' := by
  unfold Inv
  rw [hp, hw]
  exact h

lemma inv_stopPolling (s : Sys) (h : Inv s) : Inv (stopPolling s) := by
  unfold Inv SchedInv
  rw [stopPolling_interval]
  exact stopPolling_live s h

lemma inv_startPolling (s : Sys) (h : Inv s) : Inv (startPolling s) := by
  have h2 := stopPolling_live s h
  simp [startPolling, Inv, SchedInv, h2]

lemma inv_hideRunDetail (s : Sys) (h : Inv s) : Inv (hideRunDetail s) := by
  refine inv_of_eq (stopPolling s) _ (inv_stopPolling s h) ?_ ?_ <;>
    simp [hideRunDetail]

lemma loadLatex_frame (o : Except String String) (s : Sys) :
    (loadLatex o s).sys.app.pollingInterval = s.app.pollingInterval ∧
    (loadLatex o s).sys.sched = s.sched ∧
    (loadLatex o s).sys.app.currentRunId = s.app.currentRunId ∧
    (loadLatex o s).sys.app.statusView = s.app.statusView ∧
    (loadLatex o s).sys.app.sectionsView = s.app.sectionsView ∧
    (loadLatex o s).sys.app.artifactsView = s.app.artifactsView := by
  cases hr : s.app.currentRunId <;> cases o <;> simp [loadLatex, hr]

lemma loadArtifacts_frame (o : Except String Artifacts) (s : Sys) :
    (loadArtifacts o s).sys.app.pollingInterval = s.app.pollingInterval ∧
    (loadArtifacts o s).sys.sched = s.sched ∧
    (loadArtifacts o s).sys.app.currentRunId = s.app.currentRunId ∧
    (loadArtifacts o s).sys.app.statusView = s.app.statusView ∧
    (loadArtifacts o s).sys.app.sectionsView = s.app.sectionsView ∧
    (loadArtifacts o s).sys.app.latexContent = s.app.latexContent ∧
    (loadArtifacts o s).sys.app.latexView = s.app.latexView := by
  cases hr : s.app.currentRunId with
  | none => simp [loadArtifacts, hr]
  | some rid =>
      cases o with
      | ok a =>
          by_cases he : a.outline_nodes.isEmpty <;> simp [loadArtifacts, hr, he]
      | error e => simp [loadArtifacts, hr]

lemma completedPhase_sched (o : FetchOutcomes) (st : RunStatus) (s : Sys)
    (h : Inv s) :
    Inv (completedPhase o st s).sys ∧
    (st.status = Lifecycle.completed →
       (completedPhase o st s).sys.app.pollingInterval = none ∧
       (completedPhase o st s).sys.sched.live = []) ∧
    (st.status ≠ Lifecycle.completed → (completedPhase o st s).sys = s) := by
  by_cases hc : st.status = Lifecycle.completed
  · have hf := loadLatex_frame o.latex (stopPolling s)
    have hpi : (completedPhase o st s).sys.app.pollingInterval = none := by
      simp only [completedPhase, hc, if_true]
      rw [hf.1, stopPolling_interval]
    have hlv : (completedPhase o st s).sys.sched.live = [] := by
      simp only [completedPhase, hc, if_true]
      rw [hf.2.1]
      exact stopPolling_live s h
    refine ⟨?_, fun _ => ⟨hpi, hlv⟩, fun hn => absurd hc hn⟩
    unfold Inv SchedInv
    rw [hpi]
    exact hlv
  · simp only [completedPhase, hc, if_false]
    refine ⟨h, ?_, ?_⟩ <;> simp

lemma inv_tickResume (o : FetchOutcomes) (s : Sys) (h : Inv s) :
    Inv (tickResume o s).sys := by
  cases ho : o.status with
  | error e => simpa [tickResume, ho] using inv_stopPolling s h
  | ok st =>
      cases hd : o.detailed with
      | error e => simpa [tickResume, ho, hd] using inv_stopPolling s h
      | ok nodes =>
          simp only [tickResume, ho, hd]
          have hinv1 : Inv (renderView st nodes s) :=
            inv_of_eq s _ h (by simp [renderView]) (by simp [renderView])
          have hcp := (completedPhase_sched o st (renderView st nodes s) hinv1).1
          have hfa :=
            loadArtifacts_frame o.artifacts (completedPhase o st (renderView st nodes s)).sys
          exact inv_of_eq _ _ hcp hfa.1 hfa.2.1

lemma inv_updateRunDetail (o : FetchOutcomes) (s : Sys) (h : Inv s) :
    Inv (updateRunDetail o s).sys := by
  cases hr : s.app.currentRunId with
  | none => simpa [updateRunDetail, hr] using h
  | some rid => simpa [updateRunDetail, hr] using inv_tickResume o s h

lemma hideRunDetail_of_stopped (s : Sys) (h : s.app.pollingInterval = none) :
    hideRunDetail s = { s with app := { s.app with currentRunId := none } } := by
  simp [hideRunDetail, stopPolling_of_none s h]

lemma ticksFired_zero (s : Sys) (h1 : s.app.pollingInterval = none)
    (h2 : s.sched.live = []) (evs : List Event) : ticksFired s evs = 0 := by
  induction evs generalizing s with
  | nil => rfl
  | cons e es ih =>
      cases e with
      | tickFire o =>
          have hte : tickEnabled s = false := by simp [tickEnabled, h2]
          simp only [ticksFired, sessionStep, hte]
          simpa using ih s h1 h2
      | stopObserving =>
          simp only [ticksFired, sessionStep, hideRunDetail_of_stopped s h1]
          simpa using ih _ (by simpa using h1) (by simpa using h2)

lemma renderView_frame (st : RunStatus) (ns : List SectionNode) (s : Sys) :
    (renderView st ns s).app.currentRunId = s.app.currentRunId ∧
    (renderView st ns s).app.pollingInterval = s.app.pollingInterval ∧
    (renderView st ns s).sched = s.sched ∧
    (renderView st ns s).app.latexContent = s.app.latexContent ∧
    (renderView st ns s).app.latexView = s.app.latexView ∧
    (renderView st ns s).app.artifactsView = s.app.artifactsView := by
  simp [renderView]

lemma completedPhase_not (o : FetchOutcomes) (st : RunStatus) (s : Sys)
    (hc : st.status ≠ Lifecycle.completed) :
    completedPhase o st s = ⟨s, [], [], []⟩ := by
  simp [completedPhase, hc]

lemma completedPhase_completed (o : FetchOutcomes) (st : RunStatus) (s : Sys)
    (hc : st.status = Lifecycle.completed) :
    completedPhase o st s
      = { sys := (loadLatex o.latex (stopPolling s)).sys
        , calls := (loadLatex o.latex (stopPolling s)).calls
        , logs := (loadLatex o.latex (stopPolling s)).logs
        , actions := (stopPollingA s).snd ++ (loadLatex o.latex (stopPolling s)).actions } := by
  simp [completedPhase, hc]

lemma completedPhase_frame (o : FetchOutcomes) (st : RunStatus) (s : Sys) :
    (completedPhase o st s).sys.app.currentRunId = s.app.currentRunId ∧
    (completedPhase o st s).sys.app.statusView = s.app.statusView ∧
    (completedPhase o st s).sys.app.sectionsView = s.app.sectionsView ∧
    (completedPhase o st s).sys.app.artifactsView = s.app.artifactsView := by
  by_cases hc : st.status = Lifecycle.completed
  · rw [completedPhase_completed o st s hc]
    have hf := loadLatex_frame o.latex (stopPolling s)
    have hs := stopPolling_frame s
    exact ⟨by rw [hf.2.2.1, hs.1], by rw [hf.2.2.2.1, hs.2.1],
      by rw [hf.2.2.2.2.1, hs.2.2.1], by rw [hf.2.2.2.2.2, hs.2.2.2.2.2.1]⟩
  · rw [completedPhase_not o st s hc]
    exact ⟨rfl, rfl, rfl, rfl⟩

lemma loadLatex_idle (o : Except String String) (s : Sys)
    (h : s.app.currentRunId = none) : loadLatex o s = ⟨s, [], [], []⟩ := by
  simp [loadLatex, h]

lemma loadLatex_error (o : Except String String) (s : Sys) (rid e : String)
    (h : s.app.currentRunId = some rid) (ho : o = Except.error e) :
    loadLatex o s
      = ⟨s, [ApiCall.getLatex rid], ["Failed to load LaTeX: " ++ e],
         [Action.fetchLatex]⟩ := by
  simp [loadLatex, h, ho]

lemma loadLatex_run (o : Except String String) (s : Sys) (rid : String)
    (h : s.app.currentRunId = some rid) :
    (loadLatex o s).calls = [ApiCall.getLatex rid] ∧
    (loadLatex o s).actions = [Action.fetchLatex] := by
  cases o <;> simp [loadLatex, h]

lemma loadArtifacts_idle (o : Except String Artifacts) (s : Sys)
    (h : s.app.currentRunId = none) : loadArtifacts o s = ⟨s, [], [], []⟩ := by
  simp [loadArtifacts, h]

lemma loadArtifacts_error (o : Except String Artifacts) (s : Sys) (rid e : String)
    (h : s.app.currentRunId = some rid) (ho : o = Except.error e) :
    loadArtifacts o s
      = ⟨s, [ApiCall.getArtifacts rid], ["Failed to load artifacts: " ++ e],
         [Action.fetchArtifacts]⟩ := by
  simp [loadArtifacts, h, ho]

lemma loadArtifacts_run (o : Except String Artifacts) (s : Sys) (rid : String)
    (h : s.app.currentRunId = some rid) :
    (loadArtifacts o s).calls = [ApiCall.getArtifacts rid] ∧
    (loadArtifacts o s).actions = [Action.fetchArtifacts] := by
  cases o with
  | ok a => by_cases he : a.outline_nodes.isEmpty <;> simp [loadArtifacts, h, he]
  | error e => simp [loadArtifacts, h]

lemma updateRunDetail_err (s : Sys) (rid e : String) (o : FetchOutcomes)
    (hrun : s.app.currentRunId = some rid) (ho : o.status = Except.error e) :
    updateRunDetail o s
      = ⟨stopPolling s, [ApiCall.getStatus rid],
         ["Failed to load run status: " ++ e], [],
         Action.toastError :: (stopPollingA s).snd⟩ := by
  simp [updateRunDetail, hrun, tickResume, ho]

lemma updateRunDetail_ok_ok (s : Sys) (rid : String) (o : FetchOutcomes)
    (st : RunStatus) (ns : List SectionNode)
    (hrun : s.app.currentRunId = some rid)
    (ho : o.status = Except.ok st) (hd : o.detailed = Except.ok ns) :
    updateRunDetail o s
      = { sys := (loadArtifacts o.artifacts
            (completedPhase o st (renderView st ns s)).sys).sys
        , calls := ApiCall.getStatus rid :: ApiCall.getDetailedProgress (some rid) ::
            ((completedPhase o st (renderView st ns s)).calls
              ++ (loadArtifacts o.artifacts
                   (completedPhase o st (renderView st ns s)).sys).calls)
        , toasts := []
        , logs := (completedPhase o st (renderView st ns s)).logs
            ++ (loadArtifacts o.artifacts
                 (completedPhase o st (renderView st ns s)).sys).logs
        , actions := Action.renderStatusView :: Action.renderSections ::
            ((completedPhase o st (renderView st ns s)).actions
              ++ (loadArtifacts o.artifacts
                   (completedPhase o st (renderView st ns s)).sys).actions) } := by
  simp [updateRunDetail, hrun, tickResume, ho, hd]

/-! ## Claims -/

/-- C9 (confirmed): with no selection or an empty selection,
`uploadSelectedFiles` rejects locally with the no-files error and issues no
network call. -/
theorem c9_empty_ingest_rejected_locally (b : DocsBackend) :
    uploadSelectedFiles none b = ([], UploadOutcome.noFilesSelected) ∧
    uploadSelectedFiles (some []) b = ([], UploadOutcome.noFilesSelected) :=
  ⟨rfl, rfl⟩

/-- C2 counterexample: uploading the single file `paper.pdf` with all
metadata omitted by the caller produces a submission that DOES carry
client-synthesized metadata: the client fabricates the title `paper` from
the filename (main.js line 177 with the explicit placeholder comment), so
the claim that the client never synthesizes metadata is false. -/
theorem c2_counterexample :
    (uploadSelectedFiles (some [filePaper]) okBackend).fst
      = [ApiCall.uploadFile
          [FormEntry.fileEntry "file" filePaper, FormEntry.textEntry "title" "paper"]] ∧
    (uploadSelectedFiles (some [filePaper]) okBackend).fst.any callHasSynthesizedMetadata
      = true := by
  constructor
  · rfl
  · decide

/-- C2 (corrected): for every single-file upload with metadata omitted by
the caller, the client synthesizes the title from the filename (extension
stripped, whole name as fallback) as a placeholder; author and year are
never fabricated (their entries are absent from the form), and exactly one
upload request is issued. -/
theorem c2_amended_single_file_metadata (f : FileItem) (b : DocsBackend) :
    (uploadSelectedFiles (some [f]) b).fst
      = [ApiCall.uploadFile
          [FormEntry.fileEntry "file" f,
           FormEntry.textEntry "title" (stripExtJs f.name)]] := by
  simp only [uploadSelectedFiles, uploadDocumentFileForm]
  split <;> simp

/-- C4 (confirmed): an ingest of two or more files issues exactly one
network call, to the batch endpoint, and the reported outcome (with the
backend accounting modelled from the spec) satisfies
`total = number of submitted items`, `successful + failed = total`, and
preserves each failing item's backend message verbatim at its submission
position. -/
theorem c4_batch_one_call_accounting (verdict : FileItem → Except String String)
    (f g : FileItem) (rest : List FileItem)
    (ub : UpsertBody → Except String UploadResp)
    (fb : List FormEntry → Except String UploadResp) :
    (uploadSelectedFiles (some (f :: g :: rest))
        ⟨ub, fb, fun fs => Except.ok (specBatchBackend verdict fs)⟩).fst
      = [ApiCall.uploadBatch (f :: g :: rest)] ∧
    (uploadSelectedFiles (some (f :: g :: rest))
        ⟨ub, fb, fun fs => Except.ok (specBatchBackend verdict fs)⟩).snd
      = UploadOutcome.batchReported (specBatchBackend verdict (f :: g :: rest)) ∧
    (specBatchBackend verdict (f :: g :: rest)).total = (f :: g :: rest).length ∧
    (specBatchBackend verdict (f :: g :: rest)).successful
        + (specBatchBackend verdict (f :: g :: rest)).failed
      = (specBatchBackend verdict (f :: g :: rest)).total ∧
    (∀ (i : Nat) (h : i < (f :: g :: rest).length) (msg : String),
       verdict ((f :: g :: rest).get ⟨i, h⟩) = Except.error msg →
       (specBatchBackend verdict (f :: g :: rest)).results[i]?
         = some (ItemResult.err ((f :: g :: rest).get ⟨i, h⟩).name msg)) := by
  refine ⟨rfl, rfl, by simp [specBatchBackend, BatchResp.total], ?_, ?_⟩
  · simp only [specBatchBackend, BatchResp.total]
    exact countP_add_countP_not _ _
  · intro i h msg hv
    exact specBatchBackend_results_getElem _ _ i h msg hv

/-- C4 witness: three concrete files, the backend failing the second with
the message `bad pdf`. -/
theorem c4_batch_one_call_accounting_witness :
    (fun fi => if fi.name = "b.pdf" then Except.error "bad pdf"
               else Except.ok "ref") (⟨"b.pdf", "B"⟩ : FileItem) = Except.error "bad pdf" ∧
    (specBatchBackend
        (fun fi => if fi.name = "b.pdf" then Except.error "bad pdf" else Except.ok "ref")
        [⟨"a.pdf", "A"⟩, ⟨"b.pdf", "B"⟩, ⟨"c.pdf", "C"⟩]).results[1]?
      = some (ItemResult.err "b.pdf" "bad pdf") := by
  constructor
  · decide
  · exact (c4_batch_one_call_accounting
      (fun fi => if fi.name = "b.pdf" then Except.error "bad pdf" else Except.ok "ref")
      ⟨"a.pdf", "A"⟩ ⟨"b.pdf", "B"⟩ [⟨"c.pdf", "C"⟩]
      okBackend.upsert okBackend.fileUpload).2.2.2.2 1 (by decide) "bad pdf" (by decide)

/-- C6 (confirmed): the one-text-item ingest path validates locally: an
empty (trimmed) title or empty (trimmed) content is rejected with the
corresponding validation outcome and no network call; with both non-empty,
exactly one metadata+content upsert request is issued. -/
theorem c6_text_ingest_validation (rawTitle rawAuthor rawYear rawContent : String)
    (b : DocsBackend) :
    (jsTrim rawTitle = "" →
       handleDocumentSubmit rawTitle rawAuthor rawYear rawContent none b
         = ([], SubmitOutcome.titleRequired)) ∧
    (jsTrim rawTitle ≠ "" → jsTrim rawContent = "" →
       handleDocumentSubmit rawTitle rawAuthor rawYear rawContent none b
         = ([], SubmitOutcome.contentRequired)) ∧
    (jsTrim rawTitle ≠ "" → jsTrim rawContent ≠ "" →
       (handleDocumentSubmit rawTitle rawAuthor rawYear rawContent none b).fst
         = [ApiCall.upsert
             (uploadDocumentBody (jsTrim rawTitle) (jsTrim rawAuthor) rawYear
               (jsTrim rawContent))]) := by
  refine ⟨?_, ?_, ?_⟩
  · intro h1
    simp [handleDocumentSubmit, h1]
  · intro h1 h2
    simp [handleDocumentSubmit, h1, h2]
  · intro h1 h2
    simp only [handleDocumentSubmit]
    rw [if_neg h1, if_neg h2]
    split <;> rfl

/-- C6 witness: concrete missing-title, missing-content and valid inputs. -/
theorem c6_text_ingest_validation_witness :
    (jsTrim " " = "" ∧
       handleDocumentSubmit " " "A" "1999" "C" none okBackend
         = ([], SubmitOutcome.titleRequired)) ∧
    (jsTrim "T" ≠ "" ∧ jsTrim " " = "" ∧
       handleDocumentSubmit "T" "A" "1999" " " none okBackend
         = ([], SubmitOutcome.contentRequired)) ∧
    (jsTrim "T" ≠ "" ∧ jsTrim "C" ≠ "" ∧
       (handleDocumentSubmit "T" "A" "1999" "C" none okBackend).fst
         = [ApiCall.upsert
             (uploadDocumentBody (jsTrim "T") (jsTrim "A") "1999" (jsTrim "C"))]) :=
  ⟨⟨by decide, (c6_text_ingest_validation " " "A" "1999" "C" okBackend).1 (by decide)⟩,
   ⟨by decide, by decide,
     (c6_text_ingest_validation "T" "A" "1999" " " okBackend).2.1 (by decide) (by decide)⟩,
   ⟨by decide, by decide,
     (c6_text_ingest_validation "T" "A" "1999" "C" okBackend).2.2 (by decide) (by decide)⟩⟩

/-- An idle monitor session. -/
def sIdle : Sys := ⟨⟨none, none, none, none, none, none, none⟩, ⟨[], 0⟩⟩

/-- Fetch outcomes where every request fails with a transport error. -/
def oAllErr : FetchOutcomes :=
  ⟨Except.error "e1", Except.error "e2", Except.error "e3", Except.error "e4"⟩

/-- C10 (confirmed): when no run is observed, the tick operation and the
artifact and final-artifact fetches all return immediately: the state is
unchanged and no network call, toast or log is produced. -/
theorem c10_idle_frame (s : Sys) (o : FetchOutcomes)
    (oa : Except String Artifacts) (ol : Except String String)
    (h : s.app.currentRunId = none) :
    updateRunDetail o s = ⟨s, [], [], [], []⟩ ∧
    loadArtifacts oa s = ⟨s, [], [], []⟩ ∧
    loadLatex ol s = ⟨s, [], [], []⟩ := by
  refine ⟨?_, ?_, ?_⟩ <;> simp [updateRunDetail, loadArtifacts, loadLatex, h]

/-- C10 witness: the idle session with failing fetches. -/
theorem c10_idle_frame_witness :
    sIdle.app.currentRunId = none ∧
    updateRunDetail oAllErr sIdle = ⟨sIdle, [], [], [], []⟩ ∧
    loadArtifacts (Except.error "e3") sIdle = ⟨sIdle, [], [], []⟩ ∧
    loadLatex (Except.error "e4") sIdle = ⟨sIdle, [], [], []⟩ :=
  ⟨rfl, c10_idle_frame sIdle oAllErr (Except.error "e3") (Except.error "e4") rfl⟩

/-- An observing session: run `r1` with live interval timer `7` and an
empty view cache. -/
def sPoll : Sys := ⟨⟨some "r1", some 7, none, none, none, none, none⟩, ⟨[7], 8⟩⟩

/-- A completed run status. -/
def stDone : RunStatus :=
  ⟨"r1", "Topic", Lifecycle.completed, 100, ⟨0, 0, 3, 0⟩⟩

/-- A still-running run status. -/
def stRun : RunStatus :=
  ⟨"r1", "Topic", Lifecycle.running, 40, ⟨1, 1, 1, 0⟩⟩

/-- Outcomes of a tick observing completion whose artifact fetch fails. -/
def oDone : FetchOutcomes :=
  ⟨Except.ok stDone, Except.ok [], Except.error "arte", Except.ok "LTX"⟩

/-- Outcomes of a tick observing a running status. -/
def oRun : FetchOutcomes :=
  ⟨Except.ok stRun, Except.ok [], Except.error "arte", Except.error "ltxe"⟩

/-- C1 counterexample: on a poll tick from the observing state `sPoll`
whose status fetch fails with a transport error, the claim says polling is
not stopped and the next scheduled tick still fires; but after this tick no
interval timer is live, no tick can fire any more, and the cancellation
handle has been cleared — the catch block of `updateRunDetail` (main.js
lines 367-370 and 899-902) calls `stopPolling()`. -/
theorem c1_counterexample :
    tickEnabled (updateRunDetail oAllErr sPoll).sys = false ∧
    (updateRunDetail oAllErr sPoll).sys.app.pollingInterval
      ≠ sPoll.app.pollingInterval := by
  decide

/-- C1 (corrected): a transport error on the status fetch of an observing
tick leaves the observed run attached and the cached view-model intact and
surfaces exactly the error toast, but — contrary to the claim — polling is
stopped: the timer is cancelled and no later tick fires in this session;
only a new `beginObserving` restarts polling. -/
theorem c1_amended_transport_error (s : Sys) (rid e : String) (o : FetchOutcomes)
    (hrun : s.app.currentRunId = some rid) (hinv : Inv s)
    (herr : o.status = Except.error e) :
    (updateRunDetail o s).sys.app.currentRunId = some rid ∧
    (updateRunDetail o s).sys.app.statusView = s.app.statusView ∧
    (updateRunDetail o s).sys.app.sectionsView = s.app.sectionsView ∧
    (updateRunDetail o s).toasts = ["Failed to load run status: " ++ e] ∧
    (updateRunDetail o s).sys.app.pollingInterval = none ∧
    (updateRunDetail o s).sys.sched.live = [] ∧
    (∀ evs, ticksFired (updateRunDetail o s).sys evs = 0) := by
  have hf := stopPolling_frame s
  have hil := stopPolling_interval s
  have hlv := stopPolling_live s hinv
  rw [updateRunDetail_err s rid e o hrun herr]
  exact ⟨by rw [hf.1, hrun], hf.2.1, hf.2.2.1, rfl, hil, hlv,
    fun evs => ticksFired_zero _ hil hlv evs⟩

/-- C1 witness: the concrete observing session and failing fetch. -/
theorem c1_amended_transport_error_witness :
    sPoll.app.currentRunId = some "r1" ∧ Inv sPoll ∧
    oAllErr.status = Except.error "e1" ∧
    ((updateRunDetail oAllErr sPoll).sys.app.currentRunId = some "r1" ∧
     (updateRunDetail oAllErr sPoll).sys.app.statusView = sPoll.app.statusView ∧
     (updateRunDetail oAllErr sPoll).sys.app.sectionsView = sPoll.app.sectionsView ∧
     (updateRunDetail oAllErr sPoll).toasts = ["Failed to load run status: " ++ "e1"] ∧
     (updateRunDetail oAllErr sPoll).sys.app.pollingInterval = none ∧
     (updateRunDetail oAllErr sPoll).sys.sched.live = [] ∧
     (∀ evs, ticksFired (updateRunDetail oAllErr sPoll).sys evs = 0)) :=
  ⟨rfl, by decide, rfl,
    c1_amended_transport_error sPoll "r1" "e1" oAllErr rfl (by decide) rfl⟩

/-- C5 (confirmed): the timer invariant — at most one live poll timer,
consistent with the cancellation handle — is preserved by every monitor
operation; starting a new observation tears the prior timer down (the old
handle is not among the live timers afterwards); and cancelling when idle
is a no-op. -/
theorem c5_single_timer (s : Sys) (hinv : Inv s) :
    Inv (startPolling s) ∧ Inv (stopPolling s) ∧ Inv (hideRunDetail s) ∧
    (∀ o, Inv (updateRunDetail o s).sys) ∧
    (∀ rid o, Inv (viewRunDetail rid o s).sys) ∧
    s.sched.live.length ≤ 1 ∧
    (∀ t, s.app.pollingInterval = some t → t ∉ (startPolling s).sched.live) ∧
    (s.app.pollingInterval = none → stopPolling s = s) := by
  refine ⟨inv_startPolling s hinv, inv_stopPolling s hinv, inv_hideRunDetail s hinv,
    fun o => inv_updateRunDetail o s hinv, ?_, ?_, ?_, stopPolling_of_none s⟩
  · intro rid o
    unfold viewRunDetail
    exact inv_updateRunDetail o _
      (inv_startPolling _ (inv_of_eq s _ hinv (by simp) (by simp)))
  · unfold Inv SchedInv at hinv
    cases hp : s.app.pollingInterval with
    | none =>
        rw [hp] at hinv
        simp [hinv]
    | some t =>
        rw [hp] at hinv
        simp [hinv.1]
  · intro t ht
    have hinv' := hinv
    unfold Inv SchedInv at hinv'
    rw [ht] at hinv'
    have hl := stopPolling_live s hinv
    have hn := (stopPolling_frame s).2.2.2.2.2.2
    simp only [startPolling, hl, hn, List.nil_append, List.mem_singleton]
    omega

/-- C5 witness: the concrete observing session with its single live
timer. -/
theorem c5_single_timer_witness :
    Inv sPoll ∧
    (Inv (startPolling sPoll) ∧ Inv (stopPolling sPoll) ∧ Inv (hideRunDetail sPoll) ∧
     (∀ o, Inv (updateRunDetail o sPoll).sys) ∧
     (∀ rid o, Inv (viewRunDetail rid o sPoll).sys) ∧
     sPoll.sched.live.length ≤ 1 ∧
     (∀ t, sPoll.app.pollingInterval = some t → t ∉ (startPolling sPoll).sched.live) ∧
     (sPoll.app.pollingInterval = none → stopPolling sPoll = sPoll)) :=
  ⟨by decide, c5_single_timer sPoll (by decide)⟩

/-- C3 counterexample: on the concrete observing session `sPoll`, the first
tick that observes `completed` does NOT cancel the polling timer before
doing anything else with the result: the first action taken with the result
is rendering the status view (lines 337-356 precede the cancellation at
line 360), so the claimed ordering is false. -/
theorem c3_counterexample :
    (updateRunDetail oDone sPoll).actions.head? = some Action.renderStatusView ∧
    Action.cancelTimer ∈ (updateRunDetail oDone sPoll).actions ∧
    (updateRunDetail oDone sPoll).actions.head? ≠ some Action.cancelTimer := by
  decide

/-- C3 (corrected): the first tick observing `completed` cancels the timer
after rendering the view-model but before the final-artifact fetch (the
action trace is render status, render sections, cancel timer, fetch LaTeX,
fetch artifacts); afterwards no timer is live and no subsequent tick ever
fires in this session, so the poll-tick count stops increasing. -/
theorem c3_amended_completed_tick (s : Sys) (rid : String) (t : Nat)
    (o : FetchOutcomes) (st : RunStatus) (ns : List SectionNode)
    (hrun : s.app.currentRunId = some rid) (hinv : Inv s)
    (ht : s.app.pollingInterval = some t)
    (ho : o.status = Except.ok st) (hd : o.detailed = Except.ok ns)
    (hc : st.status = Lifecycle.completed) :
    (updateRunDetail o s).actions
      = [Action.renderStatusView, Action.renderSections, Action.cancelTimer,
         Action.fetchLatex, Action.fetchArtifacts] ∧
    (updateRunDetail o s).sys.app.pollingInterval = none ∧
    (updateRunDetail o s).sys.sched.live = [] ∧
    (∀ evs, ticksFired (updateRunDetail o s).sys evs = 0) := by
  have hrun1 : (renderView st ns s).app.currentRunId = some rid := by
    simp [renderView, hrun]
  have hint1 : (renderView st ns s).app.pollingInterval = some t := by
    simp [renderView, ht]
  have hinv1 : Inv (renderView st ns s) :=
    inv_of_eq s _ hinv (by simp [renderView]) (by simp [renderView])
  have hcp := completedPhase_sched o st (renderView st ns s) hinv1
  have hfa := loadArtifacts_frame o.artifacts (completedPhase o st (renderView st ns s)).sys
  have hpi : (loadArtifacts o.artifacts
      (completedPhase o st (renderView st ns s)).sys).sys.app.pollingInterval = none := by
    rw [hfa.1]
    exact (hcp.2.1 hc).1
  have hlv : (loadArtifacts o.artifacts
      (completedPhase o st (renderView st ns s)).sys).sys.sched.live = [] := by
    rw [hfa.2.1]
    exact (hcp.2.1 hc).2
  rw [updateRunDetail_ok_ok s rid o st ns hrun ho hd]
  refine ⟨?_, hpi, hlv, fun evs => ticksFired_zero _ hpi hlv evs⟩
  have h2 : (stopPolling (renderView st ns s)).app.currentRunId = some rid := by
    rw [(stopPolling_frame _).1]
    exact hrun1
  have h3 := (loadLatex_run o.latex (stopPolling (renderView st ns s)) rid h2).2
  have h4 : (loadLatex o.latex
      (stopPolling (renderView st ns s))).sys.app.currentRunId = some rid := by
    rw [(loadLatex_frame _ _).2.2.1]
    exact h2
  have h6 : (stopPollingA (renderView st ns s)).snd = [Action.cancelTimer] := by
    simp [stopPollingA, hint1]
  rw [completedPhase_completed o st (renderView st ns s) hc]
  have h5 := (loadArtifacts_run o.artifacts _ rid h4).2
  simp [h3, h5, h6]

/-- C3 witness: the concrete observing session and completed-status tick. -/
theorem c3_amended_completed_tick_witness :
    sPoll.app.currentRunId = some "r1" ∧ Inv sPoll ∧
    sPoll.app.pollingInterval = some 7 ∧
    oDone.status = Except.ok stDone ∧ oDone.detailed = Except.ok [] ∧
    stDone.status = Lifecycle.completed ∧
    ((updateRunDetail oDone sPoll).actions
       = [Action.renderStatusView, Action.renderSections, Action.cancelTimer,
          Action.fetchLatex, Action.fetchArtifacts] ∧
     (updateRunDetail oDone sPoll).sys.app.pollingInterval = none ∧
     (updateRunDetail oDone sPoll).sys.sched.live = [] ∧
     (∀ evs, ticksFired (updateRunDetail oDone sPoll).sys evs = 0)) :=
  ⟨rfl, by decide, rfl, rfl, rfl, rfl,
    c3_amended_completed_tick sPoll "r1" 7 oDone stDone [] rfl (by decide)
      rfl rfl rfl rfl⟩

/-- C7 counterexample: a status fetch is in flight on the observing session
`sPoll` (the tick entry guard passed); `stopObserving` (`hideRunDetail`)
then runs; when the fetch completes, its resumed body re-renders the stale
status into the now-idle session's cached view-model — the result is NOT
discarded, because the idle guard is only checked at tick entry
(main.js line 330), never again before the rendering at lines 337-356. -/
theorem c7_counterexample :
    (hideRunDetail sPoll).app.currentRunId = none ∧
    tickEnabled (hideRunDetail sPoll) = false ∧
    (tickResume oRun (hideRunDetail sPoll)).sys.app.statusView
      ≠ (hideRunDetail sPoll).app.statusView ∧
    (tickResume oRun (hideRunDetail sPoll)).calls
      = [ApiCall.getDetailedProgress none] := by
  decide

/-- C7 (corrected): after `stopObserving`, no further tick ever fires and a
fetch completing late cannot re-start polling, issue artifact or LaTeX or
status fetches, or mutate `latexContent`, the artifacts pane or the
observed-run field; but the stale status/sections view-model may still be
overwritten, and one detailed-progress request (with the now-null run id)
is still issued, because only the entry guard checks for idleness. -/
theorem c7_amended_inflight_result (s : Sys) (o : FetchOutcomes)
    (h1 : s.app.currentRunId = none) (h2 : s.app.pollingInterval = none)
    (h3 : s.sched.live = []) :
    (tickResume o s).sys.app.currentRunId = none ∧
    (tickResume o s).sys.app.pollingInterval = none ∧
    (tickResume o s).sys.sched.live = [] ∧
    (tickResume o s).sys.app.latexContent = s.app.latexContent ∧
    (tickResume o s).sys.app.latexView = s.app.latexView ∧
    (tickResume o s).sys.app.artifactsView = s.app.artifactsView ∧
    ((tickResume o s).calls = []
      ∨ (tickResume o s).calls = [ApiCall.getDetailedProgress none]) ∧
    (∀ evs, ticksFired (tickResume o s).sys evs = 0) := by
  have hsp := stopPolling_of_none s h2
  cases ho : o.status with
  | error e =>
      have ht : tickResume o s
          = ⟨s, [], ["Failed to load run status: " ++ e], [],
             Action.toastError :: (stopPollingA s).snd⟩ := by
        simp [tickResume, ho, hsp]
      rw [ht]
      exact ⟨h1, h2, h3, rfl, rfl, rfl, Or.inl rfl,
        fun evs => ticksFired_zero s h2 h3 evs⟩
  | ok st =>
      cases hd : o.detailed with
      | error e =>
          have ht : tickResume o s
              = ⟨s, [ApiCall.getDetailedProgress none],
                 ["Failed to load run status: " ++ e], [],
                 Action.toastError :: (stopPollingA s).snd⟩ := by
            simp [tickResume, ho, hd, hsp, h1]
          rw [ht]
          exact ⟨h1, h2, h3, rfl, rfl, rfl, Or.inr rfl,
            fun evs => ticksFired_zero s h2 h3 evs⟩
      | ok ns =>
          have hr1 : (renderView st ns s).app.currentRunId = none := by
            simp [renderView, h1]
          have hp1 : (renderView st ns s).app.pollingInterval = none := by
            simp [renderView, h2]
          have hl1 : (renderView st ns s).sched.live = [] := by
            simp [renderView, h3]
          have hcp : completedPhase o st (renderView st ns s)
              = ⟨renderView st ns s, [], [], []⟩ := by
            by_cases hc : st.status = Lifecycle.completed
            · rw [completedPhase_completed o st _ hc, stopPolling_of_none _ hp1,
                loadLatex_idle o.latex _ hr1]
              simp [stopPollingA, hp1]
            · exact completedPhase_not o st _ hc
          have hla := loadArtifacts_idle o.artifacts (renderView st ns s) hr1
          have ht : tickResume o s
              = ⟨renderView st ns s, [ApiCall.getDetailedProgress none], [], [],
                 [Action.renderStatusView, Action.renderSections]⟩ := by
            simp [tickResume, ho, hd, hcp, hla, h1]
          rw [ht]
          exact ⟨hr1, hp1, hl1, by simp [renderView], by simp [renderView],
            by simp [renderView], Or.inr rfl,
            fun evs => ticksFired_zero _ hp1 hl1 evs⟩

/-- C7 witness: the session obtained by disengaging from `sPoll` while the
status fetch of `oRun` is in flight. -/
theorem c7_amended_inflight_result_witness :
    (hideRunDetail sPoll).app.currentRunId = none ∧
    (hideRunDetail sPoll).app.pollingInterval = none ∧
    (hideRunDetail sPoll).sched.live = [] ∧
    ((tickResume oRun (hideRunDetail sPoll)).sys.app.currentRunId = none ∧
     (tickResume oRun (hideRunDetail sPoll)).sys.app.pollingInterval = none ∧
     (tickResume oRun (hideRunDetail sPoll)).sys.sched.live = [] ∧
     (tickResume oRun (hideRunDetail sPoll)).sys.app.latexContent
       = (hideRunDetail sPoll).app.latexContent ∧
     (tickResume oRun (hideRunDetail sPoll)).sys.app.latexView
       = (hideRunDetail sPoll).app.latexView ∧
     (tickResume oRun (hideRunDetail sPoll)).sys.app.artifactsView
       = (hideRunDetail sPoll).app.artifactsView ∧
     ((tickResume oRun (hideRunDetail sPoll)).calls = []
       ∨ (tickResume oRun (hideRunDetail sPoll)).calls
           = [ApiCall.getDetailedProgress none]) ∧
     (∀ evs, ticksFired (tickResume oRun (hideRunDetail sPoll)).sys evs = 0)) :=
  ⟨by decide, by decide, by decide,
    c7_amended_inflight_result (hideRunDetail sPoll) oRun
      (by decide) (by decide) (by decide)⟩

/-- C8 (confirmed): during a tick on an observing session, an artifact-pane
fetch failure is swallowed — logged, no failure toast, and (while the run
is not completed) polling continues untouched; a status-fetch failure is
always surfaced as a toast; and when `completed` is observed, the monitor
stops polling (timer handle cleared, no live timer) even if the final
LaTeX fetch fails, whose error is merely logged. -/
theorem c8_besteffort_swallowed (s : Sys) (rid : String)
    (hrun : s.app.currentRunId = some rid) (hinv : Inv s) :
    (∀ o st ns e, o.status = Except.ok st → o.detailed = Except.ok ns →
       o.artifacts = Except.error e →
       (updateRunDetail o s).toasts = [] ∧
       ("Failed to load artifacts: " ++ e) ∈ (updateRunDetail o s).logs ∧
       (st.status ≠ Lifecycle.completed →
          (updateRunDetail o s).sys.app.pollingInterval = s.app.pollingInterval ∧
          (updateRunDetail o s).sys.sched = s.sched)) ∧
    (∀ o e, o.status = Except.error e →
       ("Failed to load run status: " ++ e) ∈ (updateRunDetail o s).toasts) ∧
    (∀ o st ns, o.status = Except.ok st → o.detailed = Except.ok ns →
       st.status = Lifecycle.completed →
       (updateRunDetail o s).sys.app.pollingInterval = none ∧
       (updateRunDetail o s).sys.sched.live = [] ∧
       (updateRunDetail o s).toasts = [] ∧
       (∀ e2, o.latex = Except.error e2 →
          ("Failed to load LaTeX: " ++ e2) ∈ (updateRunDetail o s).logs)) := by
  refine ⟨?_, ?_, ?_⟩
  · intro o st ns e ho hd ha
    rw [updateRunDetail_ok_ok s rid o st ns hrun ho hd]
    have hinv1 : Inv (renderView st ns s) :=
      inv_of_eq s _ hinv (by simp [renderView]) (by simp [renderView])
    have hc1 : (completedPhase o st (renderView st ns s)).sys.app.currentRunId
        = some rid := by
      rw [(completedPhase_frame o st _).1]
      simp [renderView, hrun]
    have hla := loadArtifacts_error o.artifacts _ rid e hc1 ha
    have hfa := loadArtifacts_frame o.artifacts (completedPhase o st (renderView st ns s)).sys
    refine ⟨rfl, ?_, ?_⟩
    · have hlog : (loadArtifacts o.artifacts
          (completedPhase o st (renderView st ns s)).sys).logs
          = ["Failed to load artifacts: " ++ e] := by simp [hla]
      simp [hlog]
    · intro hnc
      have hse := (completedPhase_sched o st (renderView st ns s) hinv1).2.2 hnc
      constructor
      · rw [hfa.1, hse]
        simp [renderView]
      · rw [hfa.2.1, hse]
        simp [renderView]
  · intro o e ho
    rw [updateRunDetail_err s rid e o hrun ho]
    simp
  · intro o st ns ho hd hc
    rw [updateRunDetail_ok_ok s rid o st ns hrun ho hd]
    have hinv1 : Inv (renderView st ns s) :=
      inv_of_eq s _ hinv (by simp [renderView]) (by simp [renderView])
    have hcp := completedPhase_sched o st (renderView st ns s) hinv1
    have hfa := loadArtifacts_frame o.artifacts (completedPhase o st (renderView st ns s)).sys
    refine ⟨?_, ?_, rfl, ?_⟩
    · rw [hfa.1]
      exact (hcp.2.1 hc).1
    · rw [hfa.2.1]
      exact (hcp.2.1 hc).2
    · intro e2 hlx
      have h2 : (stopPolling (renderView st ns s)).app.currentRunId = some rid := by
        rw [(stopPolling_frame _).1]
        simp [renderView, hrun]
      have hfl : (completedPhase o st (renderView st ns s)).logs
          = ["Failed to load LaTeX: " ++ e2] := by
        rw [completedPhase_completed o st _ hc]
        simp [loadLatex_error o.latex _ rid e2 h2 hlx]
      simp [hfl]

/-- C8 witness: the concrete observing session `sPoll`, exercised on the
tick outcomes `oDone` (completed status, failing artifact and LaTeX
fetches are covered by the quantified conclusion). -/
theorem c8_besteffort_swallowed_witness :
    sPoll.app.currentRunId = some "r1" ∧ Inv sPoll ∧
    ((∀ o st ns e, o.status = Except.ok st → o.detailed = Except.ok ns →
        o.artifacts = Except.error e →
        (updateRunDetail o sPoll).toasts = [] ∧
        ("Failed to load artifacts: " ++ e) ∈ (updateRunDetail o sPoll).logs ∧
        (st.status ≠ Lifecycle.completed →
           (updateRunDetail o sPoll).sys.app.pollingInterval
             = sPoll.app.pollingInterval ∧
           (updateRunDetail o sPoll).sys.sched = sPoll.sched)) ∧
     (∀ o e, o.status = Except.error e →
        ("Failed to load run status: " ++ e) ∈ (updateRunDetail o sPoll).toasts) ∧
     (∀ o st ns, o.status = Except.ok st → o.detailed = Except.ok ns →
        st.status = Lifecycle.completed →
        (updateRunDetail o sPoll).sys.app.pollingInterval = none ∧
        (updateRunDetail o sPoll).sys.sched.live = [] ∧
        (updateRunDetail o sPoll).toasts = [] ∧
        (∀ e2, o.latex = Except.error e2 →
           ("Failed to load LaTeX: " ++ e2) ∈ (updateRunDetail o sPoll).logs))) :=
  ⟨rfl, by decide, c8_besteffort_swallowed sPoll "r1" rfl (by decide)⟩

end ReportRag
